import Mathlib

/-!
Verification of the SubNation layer-editor core (src/app/page.tsx).

The TypeScript editor is shallowly embedded here: JavaScript numbers are
modelled as real numbers, the React state hooks (`nodes`, `selectedId`,
`isDraggingRef`, `dragOffsetRef`, `step`, `imageUrl`, `generatedImage`)
are collected into a `Studio` record, and each event handler becomes a
pure state-transition function.  Canvas 2D painting is modelled as the
sequence of context commands a render pass issues.
-/

namespace SubNation

/-- Layer variant payload, from the TS discriminated union
`NodeItem = ImageNode | TextNode` (page.tsx lines 28-52): an image layer
carries `src`, `naturalW`, `naturalH`; a text layer carries `text`,
`fontFamily`, `fontSize`, `fill`. -/
inductive NodePayload where
  | image (src : String) (naturalW naturalH : ℝ)
  | text (text fontFamily : String) (fontSize : ℝ) (fill : String)

/-- A layer (TS `BaseNode` common fields plus the variant payload):
`id`, position `x`/`y` in export-pixel space, `rotation` in degrees,
uniform `scale`. -/
structure NodeItem where
  id : String
  x : ℝ
  y : ℝ
  rotation : ℝ
  scale : ℝ
  payload : NodePayload

/-- Editor step, TS `useState<"generate" | "edit">`. -/
inductive Step where
  | generate
  | edit
  deriving DecidableEq

/-- The Studio component state: the scene (`nodes`, `selectedId`), the
drag refs, the step, and the generation results (`imageUrl` and the
decoded image's width/height from `useImage`). -/
structure Studio where
  nodes : List NodeItem
  selectedId : Option String
  isDragging : Bool
  dragOffset : Option (ℝ × ℝ)
  step : Step
  imageUrl : Option String
  generatedImage : Option (ℝ × ℝ)

/-- `PRINT_DPI = 300` (page.tsx line 56). -/
def PRINT_DPI : ℝ := 300

/-- `inchesToPixels(inches, dpi) = Math.round(inches * dpi)` (page.tsx
lines 75-77).  `Math.round` rounds half-up, which is Mathlib's `round`. -/
noncomputable def inchesToPixels (inches : ℝ) (dpi : ℝ) : ℤ :=
  round (inches * dpi)

/-- `degToRad(deg) = deg * π / 180` (page.tsx lines 79-81). -/
noncomputable def degToRad (deg : ℝ) : ℝ :=
  deg * Real.pi / 180

/-- `coverScale(containerW, containerH, innerW, innerH) =
Math.max(containerW / innerW, containerH / innerH)` (page.tsx lines 83-85). -/
noncomputable def coverScale (containerW containerH innerW innerH : ℝ) : ℝ :=
  max (containerW / innerW) (containerH / innerH)

/-- Layer id assigned on entering the editor: `` `img_${Date.now()}` ``
(page.tsx line 295).  The clock value is a parameter of the event. -/
def imgIdOf (now : ℕ) : String := "img_" ++ Nat.repr now

/-- Layer id assigned by Add Text: `` `txt_${Date.now()}` `` (page.tsx
line 313). -/
def txtIdOf (now : ℕ) : String := "txt_" ++ Nat.repr now

/-- `goToEditor` (page.tsx lines 288-310): guarded on a decoded
`generatedImage` and an `imageUrl`; replaces the scene with a single
image layer scaled by `coverScale` and centered at `(pxW/2, pxH/2)`,
selects it, and moves to the edit step.  `cpx` is the derived
`canvasPx` pair `(inchesToPixels(inches.w), inchesToPixels(inches.h))`. -/
noncomputable def goToEditor (st : Studio) (cpx : ℤ × ℤ) (now : ℕ) : Studio :=
  match st.generatedImage, st.imageUrl with
  | some (imgW, imgH), some url =>
      let pxW : ℝ := (cpx.1 : ℝ)
      let pxH : ℝ := (cpx.2 : ℝ)
      let scale := coverScale pxW pxH imgW imgH
      let id := imgIdOf now
      { st with
          nodes := [{ id := id, x := pxW / 2, y := pxH / 2, rotation := 0,
                      scale := scale, payload := .image url imgW imgH }]
          selectedId := some id
          step := .edit }
  | _, _ => st

/-- `addText` (page.tsx lines 312-328): appends a text layer with the
default text/font/size/fill, centered, scale 1, rotation 0, and selects
it. -/
noncomputable def addText (st : Studio) (cpx : ℤ × ℤ) (now : ℕ) : Studio :=
  let id := txtIdOf now
  { st with
      nodes := st.nodes ++
        [{ id := id, x := (cpx.1 : ℝ) / 2, y := (cpx.2 : ℝ) / 2,
           rotation := 0, scale := 1,
           payload := .text "Your text" "Inter, system-ui, sans-serif" 72 "#111827" }]
      selectedId := some id }

/-- The Delete Selected button handler (page.tsx lines 626-632):
`selectedId && setNodes(prev => prev.filter(n => n.id !== selectedId))`.
Note it filters `nodes` only; `selectedId` itself is not written. -/
def deleteSelected (st : Studio) : Studio :=
  match st.selectedId with
  | some i => { st with nodes := st.nodes.filter (fun n => n.id != i) }
  | none => st

/-- A `Partial<NodeItem>` patch as actually used by the sidebar callers
(page.tsx lines 645-727): each caller patches one of x, y, scale,
rotation, text, fontFamily, fontSize, fill.  (`id`/`type` are never
patched by any caller.) -/
structure Patch where
  x : Option ℝ := none
  y : Option ℝ := none
  rotation : Option ℝ := none
  scale : Option ℝ := none
  text : Option String := none
  fontFamily : Option String := none
  fontSize : Option ℝ := none
  fill : Option String := none

/-- The TS object-spread merge `{ ...n, ...patch }` (page.tsx line 413).
Text-specific patch fields applied to an image node would create inert
extra properties in JS that neither renderer nor hit-tester reads; the
embedding drops them, which is observationally identical. -/
def applyPatch (n : NodeItem) (p : Patch) : NodeItem :=
  { id := n.id
    x := p.x.getD n.x
    y := p.y.getD n.y
    rotation := p.rotation.getD n.rotation
    scale := p.scale.getD n.scale
    payload :=
      match n.payload with
      | .image src w h => .image src w h
      | .text t fam fs fill =>
          .text (p.text.getD t) (p.fontFamily.getD fam)
            (p.fontSize.getD fs) (p.fill.getD fill) }

/-- `updateSelected(patch)` (page.tsx lines 411-414): no-op when nothing
is selected, otherwise merge the patch into every node whose id equals
`selectedId`.  No field of the patch is validated or clamped. -/
def updateSelected (st : Studio) (p : Patch) : Studio :=
  match st.selectedId with
  | none => st
  | some i =>
      { st with nodes := st.nodes.map (fun n => if n.id = i then applyPatch n p else n) }

/-- Abstraction of `ctx.measureText(text).width` under a given
`ctx.font = "${fontPx}px ${family}"`: arguments are font family, font
pixel size, and the measured string; result is the width in that font. -/
abbrev Measure := String → ℝ → String → ℝ

/-- One iteration of the `selectAtPoint` loop body (page.tsx lines
337-370): map the view-space pointer `(vx, vy)` into the node's local
space with the inverse transform (translate by the scaled center,
rotate by `-degToRad(rotation)`, divide by `scale * displayScale`),
then test the local bounding box — the natural rectangle for an image,
a `measureText`-wide, `fontSize`-tall rectangle for text, measured at
test time (an empty string is measured as a single space, `t.text || " "`).
Returns the local offset `(lx, ly)` on a hit, as stored into
`dragOffsetRef`. -/
noncomputable def hitNode (measure : Measure) (ds vx vy : ℝ) (n : NodeItem) :
    Option (ℝ × ℝ) :=
  let cx := n.x * ds
  let cy := n.y * ds
  let s := n.scale * ds
  let r := -(degToRad n.rotation)
  let dx := vx - cx
  let dy := vy - cy
  let rx := dx * Real.cos r - dy * Real.sin r
  let ry := dx * Real.sin r + dy * Real.cos r
  let lx := rx / s
  let ly := ry / s
  match n.payload with
  | .image _ w h =>
      if -(w / 2) ≤ lx ∧ lx ≤ w / 2 ∧ -(h / 2) ≤ ly ∧ ly ≤ h / 2 then
        some (lx, ly)
      else none
  | .text t fam fs _ =>
      let w := measure fam (fs * ds) (if t = "" then " " else t) / ds
      let h := fs
      if -(w / 2) ≤ lx ∧ lx ≤ w / 2 ∧ -(h / 2) ≤ ly ∧ ly ≤ h / 2 then
        some (lx, ly)
      else none

/-- `selectAtPoint` (page.tsx lines 330-374): walk the nodes topmost
first (`for i = nodes.length - 1; i >= 0; i--`); the first containing
node becomes selected and its local offset is stored in `dragOffsetRef`;
if none contains the pointer, both selection and drag offset are
cleared. -/
noncomputable def selectAtPoint (measure : Measure) (ds : ℝ) (st : Studio)
    (vx vy : ℝ) : Studio :=
  match st.nodes.reverse.findSome?
      (fun n => (hitNode measure ds vx vy n).map (fun off => (n.id, off))) with
  | some (i, off) => { st with selectedId := some i, dragOffset := some off }
  | none => { st with selectedId := none, dragOffset := none }

/-- `onMouseMove` (page.tsx lines 380-405): guarded on an active drag
and a selection; recomputes the dragged node's center from the pointer
minus the rotated, scaled grab offset, and writes only `x` and `y`
(divided back by `displayScale`) into every node whose id matches. -/
noncomputable def onMouseMove (st : Studio) (ds vx vy : ℝ) : Studio :=
  if st.isDragging = false then st
  else
    match st.selectedId with
    | none => st
    | some sid =>
        match st.nodes.find? (fun n => n.id == sid) with
        | none => st
        | some n =>
            let off := st.dragOffset.getD (0, 0)
            let s := n.scale * ds
            let r := degToRad n.rotation
            let lx := off.1 * s
            let ly := off.2 * s
            let rx := lx * Real.cos r - ly * Real.sin r
            let ry := lx * Real.sin r + ly * Real.cos r
            let cx := vx - rx
            let cy := vy - ry
            { st with
                nodes := st.nodes.map (fun m =>
                  if m.id = n.id then { m with x := cx / ds, y := cy / ds } else m) }

/-- The forward view transform applied by both renderers to a layer's
local-space point: `ctx.translate(x*ds, y*ds); ctx.rotate(degToRad rot);
ctx.scale(scale*ds, scale*ds)` (page.tsx lines 205-211), i.e. the local
point is scaled, rotated, then translated. -/
noncomputable def layerToView (ds x y rot scale lx ly : ℝ) : ℝ × ℝ :=
  let s := scale * ds
  let r := degToRad rot
  let sx := lx * s
  let sy := ly * s
  (x * ds + (sx * Real.cos r - sy * Real.sin r),
   y * ds + (sx * Real.sin r + sy * Real.cos r))

/-- The inverse transform implemented inside `selectAtPoint` (page.tsx
lines 339-348): subtract the scaled center, rotate by the negated
angle, divide by the composite scale. -/
noncomputable def viewToLocal (ds x y rot scale vx vy : ℝ) : ℝ × ℝ :=
  let cx := x * ds
  let cy := y * ds
  let s := scale * ds
  let r := -(degToRad rot)
  let dx := vx - cx
  let dy := vy - cy
  let rx := dx * Real.cos r - dy * Real.sin r
  let ry := dx * Real.sin r + dy * Real.cos r
  (rx / s, ry / s)

/-- One canvas-2D command, recording every state-changing or painting
context call a render pass performs together with its arguments.
(`textAlign`/`textBaseline` are set to the same constants by both
renderers and are folded into `fillTextC`.) -/
inductive Cmd where
  | setSurface (w h : ℤ)
  | fillRectC (color : String) (x y w h : ℝ)
  | save
  | translateC (x y : ℝ)
  | rotateC (r : ℝ)
  | scaleC (sx sy : ℝ)
  | drawImageC (key : String) (x y w h : ℝ)
  | setShadowColor (c : String)
  | setShadowBlur (b : ℝ)
  | fillTextC (fill : String) (fontPx : ℝ) (family : String) (text : String) (x y : ℝ)
  | strokeRectC (style : String) (dash : List ℝ) (lineWidth : ℝ) (x y w h : ℝ)
  | restore

/-- Whether the decoded-bitmap cache (`imageCache`, keyed by node id,
page.tsx lines 177-187) holds an entry for a given key; an un-decoded
image layer is skipped by both renderers (`if (img)`). -/
abbrev Cache := String → Bool

/-- Commands issued for one node by the preview draw effect (page.tsx
lines 203-230): transform chain at `displayScale`, then either the
cached bitmap drawn centered at natural size, or the text drawn with a
`rgba(0,0,0,0.08)` shadow of blur 6 (reset to 0 afterwards) in font
`fontSize * displayScale`. -/
noncomputable def drawNodePreview (cache : Cache) (ds : ℝ) (n : NodeItem) :
    List Cmd :=
  [Cmd.save, Cmd.translateC (n.x * ds) (n.y * ds),
   Cmd.rotateC (degToRad n.rotation), Cmd.scaleC (n.scale * ds) (n.scale * ds)]
  ++ (match n.payload with
      | .image _ w h =>
          if cache n.id then [Cmd.drawImageC n.id (-(w / 2)) (-(h / 2)) w h] else []
      | .text t fam fs fill =>
          [Cmd.setShadowColor "rgba(0,0,0,0.08)", Cmd.setShadowBlur 6,
           Cmd.fillTextC fill (fs * ds) fam t 0 0, Cmd.setShadowBlur 0])
  ++ [Cmd.restore]

/-- Commands issued for the selection outline at the end of the preview
pass (page.tsx lines 232-261): same transform chain, then a dashed
stroke of the selected node's bounding box, text metrics freshly
measured. -/
noncomputable def outlineCmds (measure : Measure) (ds : ℝ) (st : Studio) :
    List Cmd :=
  match st.selectedId with
  | none => []
  | some i =>
      match st.nodes.find? (fun n => n.id == i) with
      | none => []
      | some n =>
          [Cmd.save, Cmd.translateC (n.x * ds) (n.y * ds),
           Cmd.rotateC (degToRad n.rotation),
           Cmd.scaleC (n.scale * ds) (n.scale * ds)]
          ++ (match n.payload with
              | .image _ w h =>
                  [Cmd.strokeRectC "#6d28d9" [6, 6] 1.5 (-(w / 2)) (-(h / 2)) w h]
              | .text t fam fs _ =>
                  let w := measure fam (fs * ds) (if t = "" then " " else t)
                  let h := fs * ds
                  [Cmd.strokeRectC "#6d28d9" [6, 6] 1.5 (-(w / 2)) (-(h / 2)) w h])
          ++ [Cmd.restore]

/-- The preview render pass (page.tsx lines 190-262): size the surface
to `floor(canvasPx * displayScale)`, fill white, draw every node in
insertion order, then the selection outline. -/
noncomputable def renderPreview (measure : Measure) (cache : Cache)
    (cpx : ℤ × ℤ) (ds : ℝ) (st : Studio) : List Cmd :=
  let w := Int.floor ((cpx.1 : ℝ) * ds)
  let h := Int.floor ((cpx.2 : ℝ) * ds)
  [Cmd.setSurface w h, Cmd.fillRectC "#ffffff" 0 0 (w : ℝ) (h : ℝ)]
  ++ (st.nodes.map (drawNodePreview cache ds)).flatten
  ++ outlineCmds measure ds st

/-- Commands issued for one node by `exportPNG` (page.tsx lines
425-444): the same transform chain at unit scale; text is painted with
no shadow. -/
noncomputable def drawNodeExport (cache : Cache) (n : NodeItem) : List Cmd :=
  [Cmd.save, Cmd.translateC n.x n.y, Cmd.rotateC (degToRad n.rotation),
   Cmd.scaleC n.scale n.scale]
  ++ (match n.payload with
      | .image _ w h =>
          if cache n.id then [Cmd.drawImageC n.id (-(w / 2)) (-(h / 2)) w h] else []
      | .text t _fam fs fill => [Cmd.fillTextC fill fs _fam t 0 0])
  ++ [Cmd.restore]

/-- The export render pass (page.tsx lines 416-451): surface sized
exactly `(canvasPx.w, canvasPx.h)`, white fill, every node in insertion
order; no selection outline. -/
noncomputable def exportPNG (cache : Cache) (cpx : ℤ × ℤ) (st : Studio) :
    List Cmd :=
  [Cmd.setSurface cpx.1 cpx.2,
   Cmd.fillRectC "#ffffff" 0 0 ((cpx.1 : ℤ) : ℝ) ((cpx.2 : ℤ) : ℝ)]
  ++ (st.nodes.map (drawNodeExport cache)).flatten

/-- Whether a command is one of the text-shadow context writes that only
the preview pass performs. -/
def isShadowCmd : Cmd → Bool
  | .setShadowColor _ => true
  | .setShadowBlur _ => true
  | _ => false

/-- Count of shadow commands in a trace. -/
def countShadow (l : List Cmd) : ℕ :=
  (l.filter isShadowCmd).length

/-- A trace with the preview-only shadow writes removed. -/
def eraseShadows (l : List Cmd) : List Cmd :=
  l.filter (fun c => !(isShadowCmd c))

/-- A layer-creation operation: the Compose-to-Edit transition with a
decoded bitmap (its width/height and url), or an Add Text click.  Each
occurrence is paired with the `Date.now()` millisecond it runs at. -/
inductive CreateEvent where
  | enterEdit (imgW imgH : ℝ) (url : String)
  | addTextEv

/-- Dispatch one creation event at clock value `e.2`.  `enterEdit`
requires a decoded generation result, so the event carries it into the
state before calling `goToEditor`. -/
noncomputable def applyCreate (cpx : ℤ × ℤ) (st : Studio)
    (e : CreateEvent × ℕ) : Studio :=
  match e.1 with
  | .enterEdit w h url =>
      goToEditor
        { st with generatedImage := some (w, h), imageUrl := some url } cpx e.2
  | .addTextEv => addText st cpx e.2

/-- Run a sequence of creation events in order. -/
noncomputable def runCreates (cpx : ℤ × ℤ) (st : Studio)
    (es : List (CreateEvent × ℕ)) : Studio :=
  es.foldl (applyCreate cpx) st

/-- Canonical decimal digit string of a natural number, most significant
digit first; reference function used to reason about core's fuel-based
`Nat.repr`. -/
def decDigits (n : ℕ) : List Char :=
  if _h : n < 10 then [Nat.digitChar n]
  else decDigits (n / 10) ++ [Nat.digitChar (n % 10)]
termination_by n
decreasing_by exact Nat.div_lt_self (by omega) (by omega)

/-- Numeric value of a decimal digit character. -/
def digitVal (c : Char) : ℕ := c.toNat - 48

/-- Value of a most-significant-first decimal digit string. -/
def decVal (l : List Char) : ℕ :=
  l.foldl (fun a c => 10 * a + digitVal c) 0

/-! ### Helper lemmas: decimal representation and id strings -/

theorem digitVal_digitChar {d : ℕ} (h : d < 10) :
    digitVal (Nat.digitChar d) = d := by
  revert h
  revert d
  decide

theorem decVal_append (l : List Char) (c : Char) :
    decVal (l ++ [c]) = 10 * decVal l + digitVal c := by
  simp [decVal, List.foldl_append]

theorem decVal_decDigits (n : ℕ) : decVal (decDigits n) = n := by
  induction n using Nat.strong_induction_on with
  | _ n ih =>
    rw [decDigits]
    split
    · next h =>
      simp [decVal, digitVal_digitChar h]
    · next h =>
      rw [decVal_append, ih (n / 10) (Nat.div_lt_self (by omega) (by omega)),
        digitVal_digitChar (Nat.mod_lt _ (by omega))]
      omega

theorem toDigitsCore_eq (f : ℕ) :
    ∀ (n : ℕ) (l : List Char), n < 10 ^ (f + 1) →
      Nat.toDigitsCore 10 (f + 1) n l = decDigits n ++ l := by
  induction f with
  | zero =>
    intro n l h
    have hn : n < 10 := by simpa using h
    have h0 : n / 10 = 0 := by omega
    have hstep : Nat.toDigitsCore 10 1 n l =
        if n / 10 = 0 then Nat.digitChar (n % 10) :: l
        else Nat.toDigitsCore 10 0 (n / 10) (Nat.digitChar (n % 10) :: l) := rfl
    rw [hstep, if_pos h0, decDigits, dif_pos hn, Nat.mod_eq_of_lt hn]
    rfl
  | succ f ih =>
    intro n l h
    have hstep : Nat.toDigitsCore 10 (f + 1 + 1) n l =
        if n / 10 = 0 then Nat.digitChar (n % 10) :: l
        else Nat.toDigitsCore 10 (f + 1) (n / 10) (Nat.digitChar (n % 10) :: l) :=
      rfl
    by_cases h0 : n / 10 = 0
    · have hn : n < 10 := by omega
      rw [hstep, if_pos h0, decDigits, dif_pos hn, Nat.mod_eq_of_lt hn]
      rfl
    · have hn : ¬ n < 10 := by omega
      have hdiv : n / 10 < 10 ^ (f + 1) := by
        rw [Nat.div_lt_iff_lt_mul (by omega : 0 < 10)]
        calc n < 10 ^ (f + 1 + 1) := h
          _ = 10 ^ (f + 1) * 10 := by ring
      rw [hstep, if_neg h0, ih (n / 10) _ hdiv]
      conv_rhs => rw [decDigits]
      rw [dif_neg hn]
      simp

theorem repr_eq_decDigits (n : ℕ) : Nat.repr n = (decDigits n).asString := by
  have h : n < 10 ^ (n + 1) := by
    calc n < 10 ^ n := Nat.lt_pow_self (by omega) n
      _ ≤ 10 ^ (n + 1) := Nat.pow_le_pow_right (by omega) (Nat.le_succ n)
  show (Nat.toDigits 10 n).asString = _
  rw [Nat.toDigits, toDigitsCore_eq n n [] h, List.append_nil]

theorem natRepr_injective : Function.Injective Nat.repr := by
  intro a b h
  rw [repr_eq_decDigits, repr_eq_decDigits] at h
  have hd : decDigits a = decDigits b := by
    have h2 := congrArg String.data h
    simpa [List.asString] using h2
  have h3 := congrArg decVal hd
  rwa [decVal_decDigits, decVal_decDigits] at h3

theorem txtIdOf_injective : Function.Injective txtIdOf := by
  intro a b h
  have hd := congrArg String.data h
  simp only [txtIdOf, String.data_append] at hd
  have h2 := List.append_cancel_left hd
  exact natRepr_injective (String.ext h2)

theorem imgIdOf_injective : Function.Injective imgIdOf := by
  intro a b h
  have hd := congrArg String.data h
  simp only [imgIdOf, String.data_append] at hd
  have h2 := List.append_cancel_left hd
  exact natRepr_injective (String.ext h2)

theorem imgIdOf_ne_txtIdOf (a b : ℕ) : imgIdOf a ≠ txtIdOf b := by
  intro h
  have hd := congrArg String.data h
  simp only [imgIdOf, txtIdOf, String.data_append] at hd
  have h1 : ("img_".data ++ (Nat.repr a).data).head? = some 'i' := rfl
  rw [hd] at h1
  have h2 : ("txt_".data ++ (Nat.repr b).data).head? = some 't' := rfl
  rw [h2] at h1
  exact absurd h1 (by decide)

theorem runCreates_nodup (cpx : ℤ × ℤ) :
    ∀ (es : List (CreateEvent × ℕ)) (st : Studio),
      (st.nodes.map NodeItem.id).Nodup →
      (∀ n ∈ st.nodes, ∃ t, (n.id = imgIdOf t ∨ n.id = txtIdOf t) ∧
        ∀ e ∈ es, t < e.2) →
      (es.map Prod.snd).Pairwise (· < ·) →
      ((runCreates cpx st es).nodes.map NodeItem.id).Nodup := by
  intro es
  induction es with
  | nil =>
    intro st hnd _ _
    simpa [runCreates] using hnd
  | cons e es ih =>
    intro st hnd hfresh hp
    obtain ⟨ev, t⟩ := e
    have hp' : (es.map Prod.snd).Pairwise (· < ·) := (List.pairwise_cons.mp hp).2
    have hlt : ∀ e' ∈ es, t < e'.2 := by
      intro e' he'
      exact (List.pairwise_cons.mp hp).1 e'.2 (List.mem_map_of_mem _ he')
    have hrun : runCreates cpx st ((ev, t) :: es) =
        runCreates cpx (applyCreate cpx st (ev, t)) es := by
      simp [runCreates]
    rw [hrun]
    cases ev with
    | enterEdit w h url =>
      apply ih
      · simp [applyCreate, goToEditor]
      · intro n hn
        simp only [applyCreate, goToEditor, List.mem_singleton] at hn
        refine ⟨t, Or.inl ?_, fun e' he' => hlt e' he'⟩
        rw [hn]
      · exact hp'
    | addTextEv =>
      have hnotin : ∀ n ∈ st.nodes, n.id ≠ txtIdOf t := by
        intro n hn heq
        obtain ⟨t', ht', hbound⟩ := hfresh n hn
        have htlt : t' < t := hbound (.addTextEv, t) (List.mem_cons_self _ _)
        cases ht' with
        | inl h1 => exact imgIdOf_ne_txtIdOf t' t (h1 ▸ heq)
        | inr h1 =>
          have := txtIdOf_injective (h1 ▸ heq)
          omega
      apply ih
      · simp only [applyCreate, addText, List.map_append, List.map_cons,
          List.map_nil]
        rw [List.nodup_append]
        refine ⟨hnd, List.nodup_singleton _, ?_⟩
        intro a ha hb
        simp only [List.mem_singleton] at hb
        obtain ⟨n, hn, rfl⟩ := List.mem_map.mp ha
        exact hnotin n hn (hb)
      · intro n hn
        simp only [applyCreate, addText, List.mem_append, List.mem_singleton] at hn
        cases hn with
        | inl hmem =>
          obtain ⟨t', ht', hbound⟩ := hfresh n hmem
          exact ⟨t', ht', fun e' he' => hbound e' (List.mem_cons_of_mem _ he')⟩
        | inr hnew =>
          refine ⟨t, Or.inr ?_, fun e' he' => hlt e' he'⟩
          rw [hnew]
      · exact hp'

/-! ### Claim theorems -/

/-- C1 counterexample: deleting the selected layer does NOT set
`selectedId` to null.  In a scene whose only layer "a" is selected, the
Delete Selected handler empties the node sequence yet leaves
`selectedId = some "a"` — a dangling selection, contradicting the claim
that removal of the selected id yields `selectedId = null`. -/
theorem c1_dangling_selection_counterexample :
    (deleteSelected
        { nodes := [{ id := "a", x := 0, y := 0, rotation := 0, scale := 1,
                      payload := .text "Hi" "Georgia, serif" 72 "#111827" }],
          selectedId := some "a", isDragging := false, dragOffset := none,
          step := .edit, imageUrl := none, generatedImage := none }).nodes = [] ∧
    (deleteSelected
        { nodes := [{ id := "a", x := 0, y := 0, rotation := 0, scale := 1,
                      payload := .text "Hi" "Georgia, serif" 72 "#111827" }],
          selectedId := some "a", isDragging := false, dragOffset := none,
          step := .edit, imageUrl := none, generatedImage := none }).selectedId
      ≠ none := by
  constructor
  · rfl
  · simp [deleteSelected]

/-- C1 (amended): removal never writes `selectedId` — it is unchanged
whether or not the removed id was selected — and every node carrying the
selected id is removed from the sequence, so after deleting the selected
layer the still-present `selectedId` dangles (it no longer refers to any
layer in the sequence). -/
theorem c1_delete_keeps_selection (st : Studio) :
    (deleteSelected st).selectedId = st.selectedId ∧
      ∀ i, st.selectedId = some i →
        ∀ n ∈ (deleteSelected st).nodes, n.id ≠ i := by
  constructor
  · cases h : st.selectedId <;> simp [deleteSelected, h]
  · intro i h n hn
    simp only [deleteSelected, h] at hn
    have h2 := List.of_mem_filter hn
    simpa using h2

/-- C1 witness: the amended theorem applied to the one-layer scene with
its only layer selected. -/
theorem c1_delete_keeps_selection_witness :
    (deleteSelected
        { nodes := [{ id := "a", x := 0, y := 0, rotation := 0, scale := 1,
                      payload := .text "Hi" "Georgia, serif" 72 "#111827" }],
          selectedId := some "a", isDragging := false, dragOffset := none,
          step := .edit, imageUrl := none, generatedImage := none }).selectedId
      = some "a" ∧
    ∀ n ∈ (deleteSelected
        { nodes := [{ id := "a", x := 0, y := 0, rotation := 0, scale := 1,
                      payload := .text "Hi" "Georgia, serif" 72 "#111827" }],
          selectedId := some "a", isDragging := false, dragOffset := none,
          step := .edit, imageUrl := none, generatedImage := none }).nodes,
      n.id ≠ "a" := by
  refine ⟨?_, ?_⟩
  · exact (c1_delete_keeps_selection _).1
  · exact (c1_delete_keeps_selection _).2 "a" rfl

/-- C3 counterexample: a patch carrying scale −1 is neither rejected nor
clamped by `updateSelected`; the stored layer scale becomes −1, which is
not positive, refuting "after any sequence of mutations every layer has
scale > 0". -/
theorem c3_negative_scale_counterexample :
    ((updateSelected
        { nodes := [{ id := "a", x := 0, y := 0, rotation := 0, scale := 1,
                      payload := .text "Hi" "Georgia, serif" 72 "#111827" }],
          selectedId := some "a", isDragging := false, dragOffset := none,
          step := .edit, imageUrl := none, generatedImage := none }
        { scale := some (-1) }).nodes.map NodeItem.scale) = [-1] ∧
      ¬ ((0 : ℝ) < -1) := by
  constructor
  · rfl
  · norm_num

/-- C3 (amended): `updateSelected` stores patch fields verbatim with no
validation at the mutation boundary: a patched scale is written as-is
(second conjunct), and layer-scale positivity is preserved only under
the assumption that every patch carries a positive scale — the
assumption the UI's slider (min 0.1) enforces for the sole scale-mutating
caller (first conjunct). -/
theorem c3_no_mutation_boundary_validation (st : Studio) (p : Patch) :
    ((∀ s, p.scale = some s → 0 < s) → (∀ n ∈ st.nodes, 0 < n.scale) →
      ∀ n ∈ (updateSelected st p).nodes, 0 < n.scale) ∧
    (∀ i s, st.selectedId = some i → p.scale = some s →
      ∀ n ∈ (updateSelected st p).nodes, n.id = i → n.scale = s) := by
  constructor
  · intro hp hst n hn
    cases hsel : st.selectedId with
    | none =>
      rw [updateSelected, hsel] at hn
      exact hst n hn
    | some i =>
      rw [updateSelected, hsel] at hn
      simp only [List.mem_map] at hn
      obtain ⟨m, hm, rfl⟩ := hn
      by_cases hid : m.id = i
      · rw [if_pos hid]
        cases hps : p.scale with
        | none => simpa [applyPatch, hps] using hst m hm
        | some s => simpa [applyPatch, hps] using hp s hps
      · rw [if_neg hid]
        exact hst m hm
  · intro i s hsel hps n hn hid
    rw [updateSelected, hsel] at hn
    simp only [List.mem_map] at hn
    obtain ⟨m, hm, rfl⟩ := hn
    by_cases hmid : m.id = i
    · rw [if_pos hmid]
      simp [applyPatch, hps]
    · rw [if_neg hmid] at hid ⊢
      exact absurd hid hmid

/-- C3 witness: the amended theorem applied to a one-layer scene and the
patch `{ scale := 2 }`. -/
theorem c3_no_mutation_boundary_validation_witness :
    (∀ n ∈ (updateSelected
        { nodes := [{ id := "a", x := 0, y := 0, rotation := 0, scale := 1,
                      payload := .text "Hi" "Georgia, serif" 72 "#111827" }],
          selectedId := some "a", isDragging := false, dragOffset := none,
          step := .edit, imageUrl := none, generatedImage := none }
        { scale := some 2 }).nodes, 0 < n.scale) := by
  apply (c3_no_mutation_boundary_validation _ _).1
  · intro s hs
    have h2 : some (2 : ℝ) = some s := hs
    injection h2 with h3
    rw [← h3]
    norm_num
  · intro n hn
    simp only [List.mem_singleton] at hn
    rw [hn]
    norm_num

/-- C9: mutating or removing through an id absent from the scene is a
silent no-op: `updateSelected` leaves the state unchanged, and the
Delete Selected handler leaves it unchanged (hence is idempotent); when
nothing is selected both are also no-ops. -/
theorem c9_absent_id_noop (st : Studio) (i : String) (p : Patch)
    (hsel : st.selectedId = some i) (habs : ∀ n ∈ st.nodes, n.id ≠ i) :
    updateSelected st p = st ∧ deleteSelected st = st ∧
      deleteSelected (deleteSelected st) = deleteSelected st := by
  obtain ⟨ns, sid, dr, off, stp, url, gi⟩ := st
  dsimp only at hsel habs
  subst hsel
  have hmap : ns.map (fun n => if n.id = i then applyPatch n p else n) = ns := by
    conv_rhs => rw [← List.map_id ns]
    apply List.map_congr_left
    intro n hn
    simp [habs n hn]
  have hfil : ns.filter (fun n => n.id != i) = ns := by
    apply List.filter_eq_self.mpr
    intro n hn
    simpa using habs n hn
  have hupd : updateSelected ⟨ns, some i, dr, off, stp, url, gi⟩ p
      = ⟨ns, some i, dr, off, stp, url, gi⟩ := by
    simp only [updateSelected]
    rw [hmap]
  have hdel : deleteSelected ⟨ns, some i, dr, off, stp, url, gi⟩
      = ⟨ns, some i, dr, off, stp, url, gi⟩ := by
    simp only [deleteSelected]
    rw [hfil]
  exact ⟨hupd, hdel, by rw [hdel, hdel]⟩

/-- C9 witness: a scene whose only layer is "b" while "a" is (danglingly)
selected; both operations leave the state untouched. -/
theorem c9_absent_id_noop_witness :
    updateSelected
        { nodes := [{ id := "b", x := 0, y := 0, rotation := 0, scale := 1,
                      payload := .text "Hi" "Georgia, serif" 72 "#111827" }],
          selectedId := some "a", isDragging := false, dragOffset := none,
          step := .edit, imageUrl := none, generatedImage := none }
        { x := some 5 }
      = { nodes := [{ id := "b", x := 0, y := 0, rotation := 0, scale := 1,
                      payload := .text "Hi" "Georgia, serif" 72 "#111827" }],
          selectedId := some "a", isDragging := false, dragOffset := none,
          step := .edit, imageUrl := none, generatedImage := none } ∧
    deleteSelected
        { nodes := [{ id := "b", x := 0, y := 0, rotation := 0, scale := 1,
                      payload := .text "Hi" "Georgia, serif" 72 "#111827" }],
          selectedId := some "a", isDragging := false, dragOffset := none,
          step := .edit, imageUrl := none, generatedImage := none }
      = { nodes := [{ id := "b", x := 0, y := 0, rotation := 0, scale := 1,
                      payload := .text "Hi" "Georgia, serif" 72 "#111827" }],
          selectedId := some "a", isDragging := false, dragOffset := none,
          step := .edit, imageUrl := none, generatedImage := none } := by
  have h := c9_absent_id_noop
    { nodes := [{ id := "b", x := 0, y := 0, rotation := 0, scale := 1,
                  payload := .text "Hi" "Georgia, serif" 72 "#111827" }],
      selectedId := some "a", isDragging := false, dragOffset := none,
      step := .edit, imageUrl := none, generatedImage := none }
    "a" { x := some 5 } rfl (by intro n hn; simp only [List.mem_singleton] at hn; rw [hn]; decide)
  exact ⟨h.1, h.2.1⟩

/-- C4: on the Compose-to-Edit transition with a decoded bitmap
`(imgW, imgH)` and canvas pixel space `cpx`, the scene is replaced by
exactly one image layer with `scale = coverScale`, centered position,
rotation 0, and that layer selected (first conjunct, for every state and
input); in particular the mugs preset gives canvas `(2250, 1350)` from
7.5in x 4.5in at 300 dpi, and for a 1536x1024 bitmap the cover scale is
`max (2250/1536) (1350/1024) = 375/256 = 1.46484375` at position
`(1125, 675)` (remaining conjuncts). -/
theorem c4_enter_edit_cover_placement
    (ns : List NodeItem) (sid : Option String) (d : Bool)
    (off : Option (ℝ × ℝ)) (stp : Step) (url : String) (imgW imgH : ℝ)
    (cpx : ℤ × ℤ) (now : ℕ) :
    (goToEditor
        { nodes := ns, selectedId := sid, isDragging := d, dragOffset := off,
          step := stp, imageUrl := some url,
          generatedImage := some (imgW, imgH) } cpx now =
      { nodes := [{ id := imgIdOf now, x := (cpx.1 : ℝ) / 2,
                    y := (cpx.2 : ℝ) / 2, rotation := 0,
                    scale := coverScale (cpx.1 : ℝ) (cpx.2 : ℝ) imgW imgH,
                    payload := .image url imgW imgH }],
        selectedId := some (imgIdOf now), isDragging := d, dragOffset := off,
        step := .edit, imageUrl := some url,
        generatedImage := some (imgW, imgH) }) ∧
    inchesToPixels 7.5 PRINT_DPI = 2250 ∧
    inchesToPixels 4.5 PRINT_DPI = 1350 ∧
    coverScale 2250 1350 1536 1024 = 375 / 256 ∧
    ((375 : ℝ) / 256) = 1.46484375 ∧
    ((2250 : ℝ) / 2) = 1125 ∧ ((1350 : ℝ) / 2) = 675 := by
  refine ⟨rfl, ?_, ?_, ?_, by norm_num, by norm_num, by norm_num⟩
  · rw [inchesToPixels, PRINT_DPI]
    norm_num [round_eq]
  · rw [inchesToPixels, PRINT_DPI]
    norm_num [round_eq]
  · rw [coverScale]
    rw [max_eq_left (by norm_num)]
    norm_num

/-- C8 counterexample: two Add Text operations that run in the same
`Date.now()` millisecond (clock value 5) both mint the id `txt_5`, so
two layers in the scene carry the same id — layer ids are not
unconditionally unique. -/
theorem c8_duplicate_id_counterexample :
    ¬ ((runCreates (2250, 1350)
        { nodes := [], selectedId := none, isDragging := false,
          dragOffset := none, step := .generate, imageUrl := none,
          generatedImage := none }
        [(.addTextEv, 5), (.addTextEv, 5)]).nodes.map NodeItem.id).Nodup := by
  intro h
  have hids : ((runCreates (2250, 1350)
      { nodes := [], selectedId := none, isDragging := false,
        dragOffset := none, step := .generate, imageUrl := none,
        generatedImage := none }
      [(.addTextEv, 5), (.addTextEv, 5)]).nodes.map NodeItem.id)
      = ["txt_5", "txt_5"] := rfl
  rw [hids] at h
  simp at h

/-- C8 (amended): layer ids minted at creation are unique across any
sequence of layer-creation operations (enter-edit image layers and Add
Text layers) from an empty scene, PROVIDED the creation clock values are
strictly increasing — i.e. no two creations share a `Date.now()`
millisecond.  The image/text id spaces never collide (distinct string
tags), and within each space the id embeds the millisecond injectively. -/
theorem c8_ids_unique_of_distinct_clock (cpx : ℤ × ℤ) (sid : Option String)
    (d : Bool) (off : Option (ℝ × ℝ)) (stp : Step) (url : Option String)
    (gi : Option (ℝ × ℝ)) (es : List (CreateEvent × ℕ))
    (hes : (es.map Prod.snd).Pairwise (· < ·)) :
    ((runCreates cpx
        { nodes := [], selectedId := sid, isDragging := d, dragOffset := off,
          step := stp, imageUrl := url, generatedImage := gi }
        es).nodes.map NodeItem.id).Nodup := by
  apply runCreates_nodup
  · simp
  · intro n hn
    simp at hn
  · exact hes

/-- C8 witness: an enter-edit at millisecond 1 followed by two Add Text
clicks at milliseconds 2 and 3 — strictly increasing clock — yields
pairwise-distinct ids. -/
theorem c8_ids_unique_witness :
    ((([((CreateEvent.enterEdit 1536 1024 "u"), 1), (.addTextEv, 2),
        (.addTextEv, 3)] : List (CreateEvent × ℕ)).map Prod.snd).Pairwise
        (· < ·)) ∧
    ((runCreates (2250, 1350)
        { nodes := [], selectedId := none, isDragging := false,
          dragOffset := none, step := .generate, imageUrl := none,
          generatedImage := none }
        [((CreateEvent.enterEdit 1536 1024 "u"), 1), (.addTextEv, 2),
         (.addTextEv, 3)]).nodes.map NodeItem.id).Nodup := by
  refine ⟨by decide, ?_⟩
  exact c8_ids_unique_of_distinct_clock (2250, 1350) none false none
    .generate none none _ (by decide)

/-- C10: a pointer-drag move mutates only the `x` and `y` fields of the
nodes carrying the selected id: `selectedId`, the drag flag, the step,
and the node count are unchanged; at every index the node keeps its id,
rotation, scale, and variant payload; and any node whose id is not the
selected id is entirely unchanged. -/
theorem c10_drag_move_frame (st : Studio) (ds vx vy : ℝ) :
    (onMouseMove st ds vx vy).selectedId = st.selectedId ∧
    (onMouseMove st ds vx vy).isDragging = st.isDragging ∧
    (onMouseMove st ds vx vy).step = st.step ∧
    (onMouseMove st ds vx vy).nodes.length = st.nodes.length ∧
    ∀ (k : ℕ) (m : NodeItem), st.nodes[k]? = some m →
      ∃ m', (onMouseMove st ds vx vy).nodes[k]? = some m' ∧
        m'.id = m.id ∧ m'.rotation = m.rotation ∧ m'.scale = m.scale ∧
        m'.payload = m.payload ∧
        (st.selectedId ≠ some m.id → m' = m) := by
  have key : onMouseMove st ds vx vy = st ∨
      ∃ sid n, st.selectedId = some sid ∧
        st.nodes.find? (fun m => m.id == sid) = some n ∧
        ∃ a b, onMouseMove st ds vx vy =
          { st with nodes := st.nodes.map (fun m =>
              if m.id = n.id then { m with x := a, y := b } else m) } := by
    unfold onMouseMove
    split
    · exact Or.inl rfl
    · split
      · exact Or.inl rfl
      · next sid hsel =>
        split
        · exact Or.inl rfl
        · next n hfind =>
          exact Or.inr ⟨sid, n, hsel, hfind, _, _, rfl⟩
  rcases key with heq | ⟨sid, n, hsel, hfind, a, b, heq⟩
  · rw [heq]
    exact ⟨rfl, rfl, rfl, rfl,
      fun k m hm => ⟨m, hm, rfl, rfl, rfl, rfl, fun _ => rfl⟩⟩
  · have hnid : n.id = sid := by
      have h2 := List.find?_some hfind
      simpa using h2
    rw [heq]
    refine ⟨rfl, rfl, rfl, by simp, ?_⟩
    intro k m hm
    have hidx : (st.nodes.map (fun m =>
        if m.id = n.id then { m with x := a, y := b } else m))[k]?
        = some (if m.id = n.id then { m with x := a, y := b } else m) := by
      simp [List.getElem?_map, hm]
    by_cases hid : m.id = n.id
    · refine ⟨{ m with x := a, y := b }, ?_, rfl, rfl, rfl, rfl, ?_⟩
      · rw [show ({ st with nodes := st.nodes.map (fun m =>
            if m.id = n.id then { m with x := a, y := b } else m) } :
            Studio).nodes = st.nodes.map (fun m =>
            if m.id = n.id then { m with x := a, y := b } else m) from rfl,
          hidx, if_pos hid]
      · intro hne
        exact absurd (by rw [hsel, hid, hnid]) hne
    · refine ⟨m, ?_, rfl, rfl, rfl, rfl, fun _ => rfl⟩
      rw [show ({ st with nodes := st.nodes.map (fun m =>
          if m.id = n.id then { m with x := a, y := b } else m) } :
          Studio).nodes = st.nodes.map (fun m =>
          if m.id = n.id then { m with x := a, y := b } else m) from rfl,
        hidx, if_neg hid]

/-- C10 witness: in a two-layer scene with layer "b" selected and a drag
in progress, a move event leaves the non-selected layer "a" (index 0)
bitwise unchanged. -/
theorem c10_drag_move_frame_witness :
    (onMouseMove
        { nodes := [{ id := "a", x := 1, y := 2, rotation := 0, scale := 1,
                      payload := .image "u" 10 10 },
                    { id := "b", x := 3, y := 4, rotation := 0, scale := 1,
                      payload := .text "Hi" "Georgia, serif" 72 "#111827" }],
          selectedId := some "b", isDragging := true, dragOffset := none,
          step := .edit, imageUrl := none, generatedImage := none }
        1 10 20).nodes[0]?
      = some { id := "a", x := 1, y := 2, rotation := 0, scale := 1,
               payload := .image "u" 10 10 } := by
  obtain ⟨-, -, -, -, hframe⟩ := c10_drag_move_frame
    { nodes := [{ id := "a", x := 1, y := 2, rotation := 0, scale := 1,
                  payload := .image "u" 10 10 },
                { id := "b", x := 3, y := 4, rotation := 0, scale := 1,
                  payload := .text "Hi" "Georgia, serif" 72 "#111827" }],
      selectedId := some "b", isDragging := true, dragOffset := none,
      step := .edit, imageUrl := none, generatedImage := none }
    1 10 20
  obtain ⟨m', hm', -, -, -, -, hfr⟩ := hframe 0
    { id := "a", x := 1, y := 2, rotation := 0, scale := 1,
      payload := .image "u" 10 10 } rfl
  rw [hm', hfr (by simp)]

/-- Evaluation of the hit-test body on an unrotated, unit-scale text
node: the local point is the translated pointer divided by the display
scale, and the box is `measureText` wide and `fontSize` tall. -/
theorem hitNode_text_rot0 (measure : Measure) (ds vx vy : ℝ)
    (i t fam fill : String) (fs x y : ℝ) (ht : t ≠ "") :
    hitNode measure ds vx vy
      { id := i, x := x, y := y, rotation := 0, scale := 1,
        payload := .text t fam fs fill }
    = if -(measure fam (fs * ds) t / ds / 2) ≤ (vx - x * ds) / ds ∧
          (vx - x * ds) / ds ≤ measure fam (fs * ds) t / ds / 2 ∧
          -(fs / 2) ≤ (vy - y * ds) / ds ∧ (vy - y * ds) / ds ≤ fs / 2
      then some ((vx - x * ds) / ds, (vy - y * ds) / ds) else none := by
  simp only [hitNode, if_neg ht]
  norm_num [degToRad]

/-- Evaluation of the hit-test body on an unrotated, unit-scale image
node: the box is the natural rectangle. -/
theorem hitNode_image_rot0 (measure : Measure) (ds vx vy : ℝ)
    (i u : String) (w h x y : ℝ) :
    hitNode measure ds vx vy
      { id := i, x := x, y := y, rotation := 0, scale := 1,
        payload := .image u w h }
    = if -(w / 2) ≤ (vx - x * ds) / ds ∧ (vx - x * ds) / ds ≤ w / 2 ∧
          -(h / 2) ≤ (vy - y * ds) / ds ∧ (vy - y * ds) / ds ≤ h / 2
      then some ((vx - x * ds) / ds, (vy - y * ds) / ds) else none := by
  simp only [hitNode]
  norm_num [degToRad]

/-- C6: the forward layer transform of the renderers (scale, rotate,
translate — `ctx.translate; ctx.rotate; ctx.scale` applied to a local
point) composed with the inverse implemented in `selectAtPoint`
(translate by the negated center, rotate by the negated angle, divide by
the scale) is the identity on local points, exactly, for every position,
rotation, positive scale and positive display scale. -/
theorem c6_inverse_roundtrip (ds x y rot scale lx ly : ℝ)
    (hscale : 0 < scale) (hds : 0 < ds) :
    viewToLocal ds x y rot scale
      (layerToView ds x y rot scale lx ly).1
      (layerToView ds x y rot scale lx ly).2 = (lx, ly) := by
  have hsd : scale * ds ≠ 0 := by positivity
  have hpy := Real.sin_sq_add_cos_sq (degToRad rot)
  simp only [viewToLocal, layerToView, Real.cos_neg, Real.sin_neg,
    Prod.mk.injEq]
  constructor
  · rw [div_eq_iff hsd]
    linear_combination (lx * (scale * ds)) * hpy
  · rw [div_eq_iff hsd]
    linear_combination (ly * (scale * ds)) * hpy

/-- C6 witness: the round trip at display scale 1, position (3, 4),
rotation 0, scale 1, local point (5, 6). -/
theorem c6_inverse_roundtrip_witness :
    viewToLocal 1 3 4 0 1 (layerToView 1 3 4 0 1 5 6).1
      (layerToView 1 3 4 0 1 5 6).2 = (5, 6) :=
  c6_inverse_roundtrip 1 3 4 0 1 5 6 (by norm_num) (by norm_num)

/-- C5: hit-testing walks the layers in reverse insertion order and the
first (topmost) containing layer wins: in a two-layer scene `[a, b]`
whose boxes both contain the pointer, `b` (inserted second) is selected;
and when no layer contains the pointer, both the selection and the drag
offset are cleared. -/
theorem c5_topmost_wins_and_clear (measure : Measure) (ds vx vy : ℝ) :
    (∀ (a b : NodeItem) (st : Studio), st.nodes = [a, b] →
      (hitNode measure ds vx vy a).isSome →
      (hitNode measure ds vx vy b).isSome →
      (selectAtPoint measure ds st vx vy).selectedId = some b.id) ∧
    (∀ st : Studio, (∀ n ∈ st.nodes, hitNode measure ds vx vy n = none) →
      (selectAtPoint measure ds st vx vy).selectedId = none ∧
      (selectAtPoint measure ds st vx vy).dragOffset = none) := by
  constructor
  · intro a b st hns _ha hb
    obtain ⟨off, hoff⟩ := Option.isSome_iff_exists.mp hb
    rw [selectAtPoint, hns]
    simp [hoff]
  · intro st hnone
    rw [selectAtPoint]
    have hfs : st.nodes.reverse.findSome? (fun n =>
        (hitNode measure ds vx vy n).map (fun off => (n.id, off))) = none := by
      rw [List.findSome?_eq_none_iff]
      intro n hn
      rw [hnone n (List.mem_reverse.mp hn)]
      rfl
    rw [hfs]
    exact ⟨rfl, rfl⟩

/-- C5 witness: two overlapping unrotated unit-scale image layers at the
origin, both containing the pointer (0, 0); the later layer "b" is
selected. -/
theorem c5_topmost_wins_witness :
    (hitNode (fun _ _ _ => 100) 1 0 0
      { id := "a", x := 0, y := 0, rotation := 0, scale := 1,
        payload := .image "u" 100 100 }).isSome ∧
    (hitNode (fun _ _ _ => 100) 1 0 0
      { id := "b", x := 0, y := 0, rotation := 0, scale := 1,
        payload := .image "v" 80 80 }).isSome ∧
    (selectAtPoint (fun _ _ _ => 100) 1
      { nodes := [{ id := "a", x := 0, y := 0, rotation := 0, scale := 1,
                    payload := .image "u" 100 100 },
                  { id := "b", x := 0, y := 0, rotation := 0, scale := 1,
                    payload := .image "v" 80 80 }],
        selectedId := none, isDragging := false, dragOffset := none,
        step := .edit, imageUrl := none, generatedImage := none }
      0 0).selectedId = some "b" := by
  have ha : (hitNode (fun _ _ _ => 100) 1 0 0
      { id := "a", x := 0, y := 0, rotation := 0, scale := 1,
        payload := .image "u" 100 100 }).isSome := by
    rw [hitNode_image_rot0]
    rw [if_pos (by norm_num)]
    rfl
  have hb : (hitNode (fun _ _ _ => 100) 1 0 0
      { id := "b", x := 0, y := 0, rotation := 0, scale := 1,
        payload := .image "v" 80 80 }).isSome := by
    rw [hitNode_image_rot0]
    rw [if_pos (by norm_num)]
    rfl
  refine ⟨ha, hb, ?_⟩
  exact (c5_topmost_wins_and_clear (fun _ _ _ => 100) 1 0 0).1 _ _ _ rfl ha hb

/-- C7: the text bounding box used by hit-testing is recomputed from the
layer's current text at test time: after mutating the selected text
layer's text from `t1` to `t2` (no other change), the next hit-test
selects the layer exactly when the pointer lies in the box whose width
is the measured width of the NEW string `t2` — the old text `t1` does
not occur in the condition at all. -/
theorem c7_text_metrics_recomputed (measure : Measure)
    (i fam t1 t2 fill : String) (fs x y ds vx vy : ℝ) (ht2 : t2 ≠ "") :
    ((selectAtPoint measure ds
        (updateSelected
          { nodes := [{ id := i, x := x, y := y, rotation := 0, scale := 1,
                        payload := .text t1 fam fs fill }],
            selectedId := some i, isDragging := false, dragOffset := none,
            step := .edit, imageUrl := none, generatedImage := none }
          { text := some t2 })
        vx vy).selectedId = some i) ↔
      (-(measure fam (fs * ds) t2 / ds / 2) ≤ (vx - x * ds) / ds ∧
        (vx - x * ds) / ds ≤ measure fam (fs * ds) t2 / ds / 2 ∧
        -(fs / 2) ≤ (vy - y * ds) / ds ∧ (vy - y * ds) / ds ≤ fs / 2) := by
  have hupd : updateSelected
      { nodes := [{ id := i, x := x, y := y, rotation := 0, scale := 1,
                    payload := .text t1 fam fs fill }],
        selectedId := some i, isDragging := false, dragOffset := none,
        step := .edit, imageUrl := none, generatedImage := none }
      { text := some t2 }
      = { nodes := [{ id := i, x := x, y := y, rotation := 0, scale := 1,
                      payload := .text t2 fam fs fill }],
          selectedId := some i, isDragging := false, dragOffset := none,
          step := .edit, imageUrl := none, generatedImage := none } := by
    simp [updateSelected, applyPatch]
  rw [hupd]
  have hh := hitNode_text_rot0 measure ds vx vy i t2 fam fill fs x y ht2
  by_cases hc : (-(measure fam (fs * ds) t2 / ds / 2) ≤ (vx - x * ds) / ds ∧
      (vx - x * ds) / ds ≤ measure fam (fs * ds) t2 / ds / 2 ∧
      -(fs / 2) ≤ (vy - y * ds) / ds ∧ (vy - y * ds) / ds ≤ fs / 2)
  · rw [if_pos hc] at hh
    simp [selectAtPoint, hh, hc]
  · rw [if_neg hc] at hh
    simp [selectAtPoint, hh, hc]

/-- C7 witness: with the width model `10px per character`, mutating the
text from "A" (width 10) to a 24-character line (width 240) makes the
pointer (60, 0) — far outside the old 10-wide box — hit the layer,
because the box is measured from the new string. -/
theorem c7_text_metrics_recomputed_witness :
    (selectAtPoint (fun _ _ t => (t.length : ℝ) * 10) 1
        (updateSelected
          { nodes := [{ id := "t", x := 0, y := 0, rotation := 0, scale := 1,
                        payload := .text "A" "Georgia, serif" 72 "#111827" }],
            selectedId := some "t", isDragging := false, dragOffset := none,
            step := .edit, imageUrl := none, generatedImage := none }
          { text := some "A very long line of text" })
        60 0).selectedId = some "t" := by
  apply (c7_text_metrics_recomputed (fun _ _ t => (t.length : ℝ) * 10)
    "t" "Georgia, serif" "A" "A very long line of text" "#111827"
    72 0 0 1 60 0 (by decide)).mpr
  have hlen : ("A very long line of text".length : ℕ) = 24 := rfl
  refine ⟨?_, ?_, ?_, ?_⟩ <;> norm_num [hlen]

/-- C2 counterexample: for a scene of one decoded image layer and one
ASCII text layer, the preview trace at displayScale 1 differs from the
export trace: the preview issues three text-shadow context writes
(shadow color rgba(0,0,0,0.08), blur 6, blur reset 0) around the text
paint; the export issues none, so the painted pixels around the text
differ. -/
theorem c2_preview_export_counterexample :
    renderPreview (fun _ _ _ => 100) (fun _ => true) (2250, 1350) 1
        { nodes := [{ id := "img", x := 1125, y := 675, rotation := 0,
                      scale := 1, payload := .image "u" 1536 1024 },
                    { id := "t", x := 100, y := 100, rotation := 0,
                      scale := 1,
                      payload := .text "Hello" "Georgia, serif" 72 "#111827" }],
          selectedId := none, isDragging := false, dragOffset := none,
          step := .edit, imageUrl := none, generatedImage := none }
      ≠ exportPNG (fun _ => true) (2250, 1350)
        { nodes := [{ id := "img", x := 1125, y := 675, rotation := 0,
                      scale := 1, payload := .image "u" 1536 1024 },
                    { id := "t", x := 100, y := 100, rotation := 0,
                      scale := 1,
                      payload := .text "Hello" "Georgia, serif" 72 "#111827" }],
          selectedId := none, isDragging := false, dragOffset := none,
          step := .edit, imageUrl := none, generatedImage := none } := by
  intro h
  have hc := congrArg countShadow h
  have h1 : countShadow (renderPreview (fun _ _ _ => 100) (fun _ => true)
      (2250, 1350) 1
      { nodes := [{ id := "img", x := 1125, y := 675, rotation := 0,
                    scale := 1, payload := .image "u" 1536 1024 },
                  { id := "t", x := 100, y := 100, rotation := 0,
                    scale := 1,
                    payload := .text "Hello" "Georgia, serif" 72 "#111827" }],
        selectedId := none, isDragging := false, dragOffset := none,
        step := .edit, imageUrl := none, generatedImage := none }) = 3 := rfl
  have h2 : countShadow (exportPNG (fun _ => true) (2250, 1350)
      { nodes := [{ id := "img", x := 1125, y := 675, rotation := 0,
                    scale := 1, payload := .image "u" 1536 1024 },
                  { id := "t", x := 100, y := 100, rotation := 0,
                    scale := 1,
                    payload := .text "Hello" "Georgia, serif" 72 "#111827" }],
        selectedId := none, isDragging := false, dragOffset := none,
        step := .edit, imageUrl := none, generatedImage := none }) = 0 := rfl
  rw [h1, h2] at hc
  exact absurd hc (by decide)

/-- C2 (amended): for every scene of one image layer (decoded in the
cache) and one text layer, the preview pass at displayScale 1 with no
active selection and the export pass issue identical command sequences —
same surface size, same white background fill, same per-layer transform
chain (translate, rotate, scale) and same content paints — except that
the preview wraps the text paint in text-shadow context writes that the
export omits: after erasing the shadow writes the traces are equal. -/
theorem c2_preview_export_equiv_mod_shadow (measure : Measure)
    (cache : Cache) (cw ch : ℤ) (iid u tid t fam fill : String)
    (w h ix iy irot iscale fs tx ty trot tscale : ℝ)
    (hdec : cache iid = true) :
    eraseShadows (renderPreview measure cache (cw, ch) 1
        { nodes := [{ id := iid, x := ix, y := iy, rotation := irot,
                      scale := iscale, payload := .image u w h },
                    { id := tid, x := tx, y := ty, rotation := trot,
                      scale := tscale, payload := .text t fam fs fill }],
          selectedId := none, isDragging := false, dragOffset := none,
          step := .edit, imageUrl := none, generatedImage := none })
      = exportPNG cache (cw, ch)
        { nodes := [{ id := iid, x := ix, y := iy, rotation := irot,
                      scale := iscale, payload := .image u w h },
                    { id := tid, x := tx, y := ty, rotation := trot,
                      scale := tscale, payload := .text t fam fs fill }],
          selectedId := none, isDragging := false, dragOffset := none,
          step := .edit, imageUrl := none, generatedImage := none } := by
  simp [eraseShadows, renderPreview, exportPNG, drawNodePreview,
    drawNodeExport, outlineCmds, List.filter_append, isShadowCmd, hdec,
    mul_one, Int.floor_intCast]

/-- C2 witness: the amended equality at the concrete scene of the
counterexample, with every image decoded. -/
theorem c2_preview_export_equiv_witness :
    eraseShadows (renderPreview (fun _ _ _ => 100) (fun _ => true)
        (2250, 1350) 1
        { nodes := [{ id := "img", x := 1125, y := 675, rotation := 0,
                      scale := 1, payload := .image "u" 1536 1024 },
                    { id := "t", x := 100, y := 100, rotation := 0,
                      scale := 1,
                      payload := .text "Hello" "Georgia, serif" 72 "#111827" }],
          selectedId := none, isDragging := false, dragOffset := none,
          step := .edit, imageUrl := none, generatedImage := none })
      = exportPNG (fun _ => true) (2250, 1350)
        { nodes := [{ id := "img", x := 1125, y := 675, rotation := 0,
                      scale := 1, payload := .image "u" 1536 1024 },
                    { id := "t", x := 100, y := 100, rotation := 0,
                      scale := 1,
                      payload := .text "Hello" "Georgia, serif" 72 "#111827" }],
          selectedId := none, isDragging := false, dragOffset := none,
          step := .edit, imageUrl := none, generatedImage := none } :=
  c2_preview_export_equiv_mod_shadow (fun _ _ _ => 100) (fun _ => true)
    2250 1350 "img" "u" "t" "Hello" "Georgia, serif" "#111827"
    1536 1024 1125 675 0 1 72 100 100 0 1 rfl

end SubNation
